import Mathlib

/-!
# Verification of the TypeORM persistence `Subject` (change-tracking / diff engine)

Shallow embedding of `src/persistence/Subject.ts`: the `Subject` unit-of-work
record, its derived flags (`mustBeInserted`, `mustBeUpdated`), the
`databaseEntity` setter, `validate`, and the two diff algorithms
(`buildDiffColumns`, `buildDiffRelationalColumns`).

JavaScript runtime values are modelled by `JsVal`.  Objects carry a `ref`
tag modelling JavaScript object identity, so that the strict (in)equality
operators `===` / `!==` of the source can be rendered faithfully:
scalars compare by value, objects (and `Date` objects) by reference.

External collaborators that are not part of the source file set
(`DataTransformationUtils`, `ColumnMetadata.getEntityValue`,
`EntityMetadata.hasRelationWithDbName` / `findRelationWithDbName`,
`getEntityIdMixedMap`) are modelled from the spec; each such definition
carries a doc comment starting with `Modelled from the spec:`.
-/

/-- A JavaScript runtime value.  `vObj` and `vDate` carry a `ref` tag
modelling object identity (JS `===` compares objects by reference).
`vDate` additionally records the UTC instant the date denotes and the
timezone offset of its textual representation. -/
inductive JsVal where
  | vUndefined : JsVal
  | vNull : JsVal
  | vBool (b : Bool) : JsVal
  | vInt (n : Int) : JsVal
  | vStr (s : String) : JsVal
  | vDate (ref : Nat) (instant : Int) (off : Int) : JsVal
  | vObj (ref : Nat) (fields : List (String × JsVal)) : JsVal

/-- A plain JS object literal: an ordered association of property names to values. -/
def ObjectLiteral := List (String × JsVal)

/-- JS property access `o[k]` on an object literal: `undefined` when absent. -/
def getProp (o : ObjectLiteral) (k : String) : JsVal :=
  match o.find? (fun p => p.1 == k) with
  | some p => p.2
  | none => JsVal.vUndefined

/-- JS property access `v[k]` on an arbitrary value: field lookup on objects,
`undefined` otherwise (the throwing access on `null` is not exercised by the
guarded code paths embedded here). -/
def propOf (v : JsVal) (k : String) : JsVal :=
  match v with
  | JsVal.vObj _ fields => getProp fields k
  | _ => JsVal.vUndefined

/-- `v === undefined`. -/
def JsVal.isUndefined : JsVal → Bool
  | JsVal.vUndefined => true
  | _ => false

/-- `v === null`. -/
def JsVal.isNull : JsVal → Bool
  | JsVal.vNull => true
  | _ => false

/-- `v instanceof Object` (plain objects and `Date` objects). -/
def JsVal.isObjectVal : JsVal → Bool
  | JsVal.vObj _ _ => true
  | JsVal.vDate _ _ _ => true
  | _ => false

/-- JS strict equality `===`: scalars by value, objects by reference. -/
def strictEq : JsVal → JsVal → Bool
  | JsVal.vUndefined, JsVal.vUndefined => true
  | JsVal.vNull, JsVal.vNull => true
  | JsVal.vBool a, JsVal.vBool b => a == b
  | JsVal.vInt a, JsVal.vInt b => a == b
  | JsVal.vStr a, JsVal.vStr b => a == b
  | JsVal.vDate r _ _, JsVal.vDate r' _ _ => r == r'
  | JsVal.vObj r _, JsVal.vObj r' _ => r == r'
  | _, _ => false

mutual

/-- Canonical deep serialization of a value, ignoring object identity.
Used both to model `JSON.stringify` (the source normalizes `json` columns
with it) and to state structural (by-value) equality of composite
identifier maps. -/
def jsonStrVal : JsVal → String
  | JsVal.vUndefined => "und"
  | JsVal.vNull => "null"
  | JsVal.vBool b => if b then "true" else "false"
  | JsVal.vInt n => toString n
  | JsVal.vStr s => "str:" ++ s
  | JsVal.vDate _ i o => "dateobj:" ++ toString i ++ ":" ++ toString o
  | JsVal.vObj _ fields => "obj(" ++ jsonStrFields fields ++ ")"

/-- Serialization of an object's field list, in declaration order. -/
def jsonStrFields : List (String × JsVal) → String
  | [] => ""
  | (k, v) :: rest => k ++ "=" ++ jsonStrVal v ++ ";" ++ jsonStrFields rest

end

/-- Modelled from the spec: `JSON.stringify` serializes the value to its
canonical string form. -/
def jsonStringify (v : JsVal) : JsVal :=
  JsVal.vStr (jsonStrVal v)

/-- Modelled from the spec: `DataTransformationUtils.mixedDateToDateString`
converts a date value to a date-only string (no time component); values that
are already canonical strings pass through. -/
def mixedDateToDateString : JsVal → JsVal
  | JsVal.vDate _ i o => JsVal.vStr ("date:" ++ toString ((i + o) / 86400))
  | v => v

/-- Modelled from the spec: `DataTransformationUtils.mixedDateToTimeString`
converts a date value to a time-only string. -/
def mixedDateToTimeString : JsVal → JsVal
  | JsVal.vDate _ i o => JsVal.vStr ("time:" ++ toString ((i + o) % 86400))
  | v => v

/-- Modelled from the spec: `DataTransformationUtils.mixedDateToDatetimeString`
converts a date value to a local-timezone datetime string; the result depends
on the representation's offset as well as the instant. -/
def mixedDateToDatetimeString : JsVal → JsVal
  | JsVal.vDate _ i o => JsVal.vStr ("local:" ++ toString (i + o))
  | v => v

/-- Modelled from the spec: `DataTransformationUtils.mixedDateToUtcDatetimeString`
converts a date value to a UTC datetime string; the result depends only on the
UTC instant the value denotes, not on its timezone representation. -/
def mixedDateToUtcDatetimeString : JsVal → JsVal
  | JsVal.vDate _ i _ => JsVal.vStr ("utc:" ++ toString i)
  | v => v

/-- Modelled from the spec: `DataTransformationUtils.simpleArrayToString`
converts a delimited-array value to its canonical delimited-string form;
rendered here through the canonical serialization. -/
def simpleArrayToString : JsVal → JsVal
  | JsVal.vObj _ fields => JsVal.vStr ("arr(" ++ jsonStrFields fields ++ ")")
  | v => v

/-- The semantic column types distinguished by the diff algorithm
(`ColumnTypes.DATE / TIME / DATETIME / JSON / SIMPLE_ARRAY`, plus the
untransformed rest). -/
inductive ColumnType where
  | plain : ColumnType
  | date : ColumnType
  | time : ColumnType
  | datetime : ColumnType
  | json : ColumnType
  | simpleArray : ColumnType
deriving DecidableEq

/-- One column descriptor, with the flags the diff algorithm reads. -/
structure ColumnMetadata where
  propertyName : String
  type : ColumnType
  isInEmbedded : Bool
  embeddedProperty : String
  isVirtual : Bool
  isParentId : Bool
  isDiscriminator : Bool
  isUpdateDate : Bool
  isVersion : Bool
  isCreateDate : Bool
  loadInLocalTimezone : Bool
deriving DecidableEq

/-- One relation descriptor.  `getIdOf` models
`relation.inverseEntityMetadata.getEntityIdMixedMap`: the external helper
extracting the mixed identifier (scalar primary key or composite map) from a
related entity object. -/
structure RelationMetadata where
  propertyName : String
  name : String
  isManyToOne : Bool
  isOneToOne : Bool
  isOwning : Bool
  getIdOf : JsVal → JsVal

/-- Entity metadata: the column list and relation list in declaration order. -/
structure EntityMetadata where
  name : String
  allColumns : List ColumnMetadata
  allRelations : List RelationMetadata

/-- Modelled from the spec: `EntityMetadata.findRelationWithDbName` finds the
owning relation whose database-facing `name` equals the given column name
(spec §4.2 rule 4: the metadata indicates the column name corresponds to an
OWNING relation's foreign key; non-owning relations store no foreign key and
are never matched). -/
def EntityMetadata.findRelationWithDbName (m : EntityMetadata) (dbName : String) : Option RelationMetadata :=
  m.allRelations.find? (fun r => r.name == dbName && r.isOwning)

/-- Modelled from the spec: `ColumnMetadata.getEntityValue` resolves
`entity[propertyName]`, or `entity[embeddedProperty][propertyName]` for a
column living in an embedded value object. -/
def getEntityValueOf (e : ObjectLiteral) (c : ColumnMetadata) : JsVal :=
  if c.isInEmbedded then propOf (getProp e c.embeddedProperty) c.propertyName
  else getProp e c.propertyName

/-- The value-normalization step of `buildDiffColumns` (source lines 311-337):
for an entity-side value that is neither `null` nor `undefined`, apply the
type-specific transformation to the entity value and — exactly for `datetime`,
`json` (db side only when defined) and `simple_array` — to the database value
as well.  Returns the pair (entityValue, databaseValue) used for comparison. -/
def normalizeForComparison (c : ColumnMetadata) (ev dv : JsVal) : JsVal × JsVal :=
  if ev.isNull || ev.isUndefined then (ev, dv)
  else
    match c.type with
    | ColumnType.date => (mixedDateToDateString ev, dv)
    | ColumnType.time => (mixedDateToTimeString ev, dv)
    | ColumnType.datetime =>
        if c.loadInLocalTimezone then
          (mixedDateToDatetimeString ev, mixedDateToDatetimeString dv)
        else
          (mixedDateToUtcDatetimeString ev, mixedDateToUtcDatetimeString dv)
    | ColumnType.json =>
        (jsonStringify ev, if dv.isNull || dv.isUndefined then dv else jsonStringify dv)
    | ColumnType.simpleArray => (simpleArrayToString ev, simpleArrayToString dv)
    | ColumnType.plain => (ev, dv)

/-- Whether the raw value of a column is resolvable on the desired entity
(source lines 339-345): a plain column needs `entity[propertyName]` defined;
an embedded column needs `entity[embeddedProperty]` and
`entity[embeddedProperty][propertyName]` defined. -/
def rawValueResolvable (e : ObjectLiteral) (c : ColumnMetadata) : Bool :=
  if !c.isInEmbedded then !(getProp e c.propertyName).isUndefined
  else !((getProp e c.embeddedProperty).isUndefined
         || (propOf (getProp e c.embeddedProperty) c.propertyName).isUndefined)

/-- Disjunction of the six system-managed column flags (source lines 348-353). -/
def isSystemManaged (c : ColumnMetadata) : Bool :=
  c.isVirtual || c.isParentId || c.isDiscriminator || c.isUpdateDate || c.isVersion || c.isCreateDate

/-- The filter predicate of `Subject.buildDiffColumns` (source lines 305-365),
deciding whether one column belongs to the column diff of entity `e` against
database snapshot `db`. -/
def columnDiffPred (m : EntityMetadata) (e db : ObjectLiteral) (c : ColumnMetadata) : Bool :=
  let nv := normalizeForComparison c (getEntityValueOf e c) (getEntityValueOf db c)
  if !c.isInEmbedded && (getProp e c.propertyName).isUndefined then false
  else if c.isInEmbedded && ((getProp e c.embeddedProperty).isUndefined
        || (propOf (getProp e c.embeddedProperty) c.propertyName).isUndefined) then false
  else if isSystemManaged c || strictEq nv.1 nv.2 then false
  else if !c.isInEmbedded then
    match m.findRelationWithDbName c.propertyName with
    | some relation =>
        if !(getProp e relation.propertyName).isNull
           && !(getProp e relation.propertyName).isUndefined then false
        else true
    | none => true
  else true

/-- `Subject.buildDiffColumns` (source lines 304-366), as a function of the
metadata, the desired entity and the database snapshot. -/
def buildDiffColumns (m : EntityMetadata) (e db : ObjectLiteral) : List ColumnMetadata :=
  m.allColumns.filter (columnDiffPred m e db)

/-- The desired-side relation identifier of `buildDiffRelationalColumns`
(source lines 380-383): the mixed identifier extracted from a nested object,
or the raw property value otherwise. -/
def updatedEntityRelationId (e : ObjectLiteral) (r : RelationMetadata) : JsVal :=
  let v := getProp e r.propertyName
  if v.isObjectVal then r.getIdOf v else v

/-- The filter predicate of `Subject.buildDiffRelationalColumns`
(source lines 372-408). -/
def relationDiffPred (e db : ObjectLiteral) (r : RelationMetadata) : Bool :=
  if !r.isManyToOne && !(r.isOneToOne && r.isOwning) then false
  else
    let uid := updatedEntityRelationId e r
    let did := getProp db r.name
    if uid.isUndefined then false
    else if (uid.isUndefined || uid.isNull) && (did.isUndefined || did.isNull) then false
    else !(strictEq uid did)

/-- `Subject.buildDiffRelationalColumns` (source lines 371-409), as a function
of the metadata, the desired entity and the database snapshot. -/
def buildDiffRelationalColumns (m : EntityMetadata) (e db : ObjectLiteral) : List RelationMetadata :=
  m.allRelations.filter (relationDiffPred e db)

/-- A pending inverse-side relation update (source interface `RelationUpdate`). -/
structure RelationUpdate where
  relation : RelationMetadata
  value : JsVal

/-- A pending junction-table insert (source interface `JunctionInsert`). -/
structure JunctionInsert where
  relation : RelationMetadata
  junctionEntities : List ObjectLiteral

/-- A pending junction-table remove (source interface `JunctionRemove`). -/
structure JunctionRemove where
  relation : RelationMetadata
  junctionRelationIds : List JsVal

/-- The `Subject` unit-of-work record (source class `Subject`). -/
structure Subject where
  metadata : EntityMetadata
  persistEntity : Option ObjectLiteral
  databaseEntityField : Option ObjectLiteral
  date : Nat
  canBeInserted : Bool
  canBeUpdated : Bool
  mustBeRemoved : Bool
  diffColumns : List ColumnMetadata
  diffRelations : List RelationMetadata
  relationUpdates : List RelationUpdate
  junctionInserts : List JunctionInsert
  junctionRemoves : List JunctionRemove
  newlyGeneratedId : Option JsVal
  parentGeneratedId : Option JsVal
  treeLevel : Option Nat

/-- `get hasEntity` (source lines 188-190). -/
def Subject.hasEntity (s : Subject) : Bool :=
  s.persistEntity.isSome

/-- `get hasDatabaseEntity` (source lines 206-208). -/
def Subject.hasDatabaseEntity (s : Subject) : Bool :=
  s.databaseEntityField.isSome

/-- The persisted entity as used inside the guarded code paths (the throwing
getter `get entity` is only invoked by the source when `hasEntity` holds). -/
def Subject.entityOrEmpty (s : Subject) : ObjectLiteral :=
  s.persistEntity.getD []

/-- `get mustBeInserted` (source lines 235-237). -/
def Subject.mustBeInserted (s : Subject) : Bool :=
  s.canBeInserted && !s.hasDatabaseEntity

/-- `get mustBeUpdated` (source lines 244-246). -/
def Subject.mustBeUpdated (s : Subject) : Bool :=
  s.canBeUpdated && (decide (s.diffColumns.length > 0) || decide (s.diffRelations.length > 0))

/-- `get hasRelationUpdates` (source lines 251-253). -/
def Subject.hasRelationUpdates (s : Subject) : Bool :=
  decide (s.relationUpdates.length > 0)

/-- The `databaseEntity` setter (source lines 215-221): store the snapshot and,
when a persisted entity is present, recompute `diffColumns` and
`diffRelations` against the freshly stored snapshot.  (The `databaseEntity`
truthiness test of the source is always true for an object literal.) -/
def Subject.setDatabaseEntity (s : Subject) (db : ObjectLiteral) : Subject :=
  let s1 := { s with databaseEntityField := some db }
  if s1.hasEntity then
    { s1 with
      diffColumns := buildDiffColumns s1.metadata s1.entityOrEmpty db
      diffRelations := buildDiffRelationalColumns s1.metadata s1.entityOrEmpty db }
  else s1

/-- The three distinct conflicting-operation error conditions raised by
`Subject.validate`, each carrying the entity name interpolated into the
source's error message. -/
inductive ConflictingOperationError where
  | insertRemove (entityName : String) : ConflictingOperationError
  | updateRemove (entityName : String) : ConflictingOperationError
  | insertUpdate (entityName : String) : ConflictingOperationError
deriving DecidableEq

/-- `Subject.validate` (source lines 283-295): three checks in order, each
throwing its own error; success otherwise. -/
def Subject.validate (s : Subject) : Except ConflictingOperationError Unit :=
  if s.mustBeInserted && s.mustBeRemoved then
    Except.error (ConflictingOperationError.insertRemove s.metadata.name)
  else if s.mustBeUpdated && s.mustBeRemoved then
    Except.error (ConflictingOperationError.updateRemove s.metadata.name)
  else if s.mustBeInserted && s.mustBeUpdated then
    Except.error (ConflictingOperationError.insertUpdate s.metadata.name)
  else Except.ok ()

/-- The field list of an object value (used to state structural, by-value
equality of composite identifier maps). -/
def objFieldsOf : JsVal → List (String × JsVal)
  | JsVal.vObj _ fields => fields
  | _ => []

/-- The identity tag of an object value. -/
def objRefOf : JsVal → Nat
  | JsVal.vObj r _ => r
  | JsVal.vDate r _ _ => r
  | _ => 0

/-- A plain integer column with the given property name and no flags set. -/
def plainCol (n : String) : ColumnMetadata :=
  ⟨n, ColumnType.plain, false, "", false, false, false, false, false, false, false⟩

def likesCol : ColumnMetadata := plainCol "likes"

def commentsCol : ColumnMetadata := plainCol "comments"

def favoritesCol : ColumnMetadata := plainCol "favorites"

/-- A metadata with three plain counter columns and no relations. -/
def postMeta : EntityMetadata := ⟨"Post", [likesCol, commentsCol, favoritesCol], []⟩

def eFav : ObjectLiteral :=
  [("likes", JsVal.vInt 1), ("comments", JsVal.vInt 5), ("favorites", JsVal.vInt 2)]

def dbFav : ObjectLiteral :=
  [("likes", JsVal.vInt 1), ("comments", JsVal.vInt 5), ("favorites", JsVal.vInt 3)]

def dbSame : ObjectLiteral :=
  [("likes", JsVal.vInt 1), ("comments", JsVal.vInt 5), ("favorites", JsVal.vInt 2)]

/-- A foreign-key column backing the `author` relation. -/
def authorIdCol : ColumnMetadata := plainCol "authorId"

/-- An owning many-to-one relation whose database-facing name is `authorId`;
its inverse metadata extracts the scalar `id` as mixed identifier. -/
def authorRel : RelationMetadata :=
  ⟨"author", "authorId", true, false, true, fun v => propOf v "id"⟩

def articleMeta : EntityMetadata := ⟨"Article", [authorIdCol], [authorRel]⟩

/-- Desired entity holding a bare foreign-key id (not a live object) at the
relation's property, while the foreign-key column itself also differs. -/
def bareIdEntity : ObjectLiteral :=
  [("authorId", JsVal.vInt 7), ("author", JsVal.vInt 5)]

/-- Desired entity whose relation property is `null`. -/
def nullRelEntity : ObjectLiteral :=
  [("authorId", JsVal.vInt 7), ("author", JsVal.vNull)]

def articleDb : ObjectLiteral := [("authorId", JsVal.vInt 3)]

/-- An owning many-to-one relation with a composite (two-column) identifier:
the mixed identifier extracted from any related object is a fresh composite
map. -/
def compositeRel : RelationMetadata :=
  ⟨"author", "authorId", true, false, true,
   fun _ => JsVal.vObj 1 [("a", JsVal.vInt 1), ("b", JsVal.vInt 2)]⟩

def compMeta : EntityMetadata := ⟨"Doc", [], [compositeRel]⟩

def compEntity : ObjectLiteral := [("author", JsVal.vObj 5 [])]

/-- Database snapshot carrying a structurally equal but distinct composite
identifier map for the relation. -/
def compDb : ObjectLiteral :=
  [("authorId", JsVal.vObj 2 [("a", JsVal.vInt 1), ("b", JsVal.vInt 2)])]

/-- An update-eligible subject holding `compEntity` as its desired entity. -/
def compSubject : Subject :=
  ⟨compMeta, some compEntity, none, 0, false, true, false, [], [], [], [], [], none, none, none⟩

def emptyMeta : EntityMetadata := ⟨"Photo", [], []⟩

/-- A subject scheduled (eligibly) for insert that is also marked removed. -/
def conflictSubject : Subject :=
  ⟨emptyMeta, some [], none, 0, true, false, true, [], [], [], [], [], none, none, none⟩

/-- A subject with a desired entity and no database snapshot yet. -/
def freshSubject : Subject :=
  ⟨postMeta, some eFav, none, 0, false, true, false, [], [], [], [], [], none, none, none⟩

/-- A subject whose desired entity coincides with the snapshot `dbSame`. -/
def sameSubject : Subject :=
  ⟨postMeta, some eFav, none, 0, false, true, false, [favoritesCol], [], [], [], [], none, none, none⟩

/-- A subject without a desired entity (pure database orphan). -/
def orphanSubject : Subject :=
  ⟨postMeta, none, none, 0, false, false, true, [favoritesCol], [authorRel], [], [], [], none, none, none⟩

/-- A datetime column loaded in UTC mode. -/
def seenAtCol : ColumnMetadata :=
  ⟨"seenAt", ColumnType.datetime, false, "", false, false, false, false, false, false, false⟩

def eventMeta : EntityMetadata := ⟨"Event", [seenAtCol], []⟩

def eventEntity : ObjectLiteral := [("seenAt", JsVal.vDate 1 1000 120)]

def eventDb : ObjectLiteral := [("seenAt", JsVal.vDate 2 1000 0)]

theorem columnDiffPred_iff (m : EntityMetadata) (e db : ObjectLiteral) (c : ColumnMetadata) :
    columnDiffPred m e db c = true ↔
      (rawValueResolvable e c = true ∧ isSystemManaged c = false ∧
       strictEq (normalizeForComparison c (getEntityValueOf e c) (getEntityValueOf db c)).1
                (normalizeForComparison c (getEntityValueOf e c) (getEntityValueOf db c)).2 = false ∧
       (c.isInEmbedded = false →
         ∀ r, m.findRelationWithDbName c.propertyName = some r →
           (getProp e r.propertyName).isNull = true ∨ (getProp e r.propertyName).isUndefined = true)) := by
  unfold columnDiffPred rawValueResolvable
  cases hemb : c.isInEmbedded with
  | false =>
    cases hfind : m.findRelationWithDbName c.propertyName with
    | none =>
      by_cases hu : (getProp e c.propertyName).isUndefined = true <;>
        by_cases hs : isSystemManaged c = true <;>
        by_cases hq : strictEq (normalizeForComparison c (getEntityValueOf e c) (getEntityValueOf db c)).1
            (normalizeForComparison c (getEntityValueOf e c) (getEntityValueOf db c)).2 = true <;>
        simp_all
    | some r =>
      by_cases hu : (getProp e c.propertyName).isUndefined = true <;>
        by_cases hs : isSystemManaged c = true <;>
        by_cases hq : strictEq (normalizeForComparison c (getEntityValueOf e c) (getEntityValueOf db c)).1
            (normalizeForComparison c (getEntityValueOf e c) (getEntityValueOf db c)).2 = true <;>
        by_cases hn : (getProp e r.propertyName).isNull = true <;>
        by_cases hd : (getProp e r.propertyName).isUndefined = true <;>
        simp_all
  | true =>
    by_cases he : (getProp e c.embeddedProperty).isUndefined = true <;>
      by_cases hi : (propOf (getProp e c.embeddedProperty) c.propertyName).isUndefined = true <;>
      by_cases hs : isSystemManaged c = true <;>
      by_cases hq : strictEq (normalizeForComparison c (getEntityValueOf e c) (getEntityValueOf db c)).1
          (normalizeForComparison c (getEntityValueOf e c) (getEntityValueOf db c)).2 = true <;>
      simp_all

theorem relationDiffPred_iff (e db : ObjectLiteral) (r : RelationMetadata) :
    relationDiffPred e db r = true ↔
      ((r.isManyToOne = true ∨ (r.isOneToOne = true ∧ r.isOwning = true)) ∧
       (updatedEntityRelationId e r).isUndefined = false ∧
       ¬(((updatedEntityRelationId e r).isUndefined = true ∨ (updatedEntityRelationId e r).isNull = true) ∧
         ((getProp db r.name).isUndefined = true ∨ (getProp db r.name).isNull = true)) ∧
       strictEq (updatedEntityRelationId e r) (getProp db r.name) = false) := by
  unfold relationDiffPred
  by_cases hm : r.isManyToOne = true <;>
    by_cases ho : r.isOneToOne = true <;>
    by_cases hw : r.isOwning = true <;>
    by_cases hu : (updatedEntityRelationId e r).isUndefined = true <;>
    by_cases hn : (updatedEntityRelationId e r).isNull = true <;>
    by_cases hdu : (getProp db r.name).isUndefined = true <;>
    by_cases hdn : (getProp db r.name).isNull = true <;>
    by_cases hq : strictEq (updatedEntityRelationId e r) (getProp db r.name) = true <;>
    simp_all

/-- C1: `validate` fails with a distinct `ConflictingOperationError` if and
only if a pair of `mustBeInserted` / `mustBeUpdated` / `mustBeRemoved` is
simultaneously true — insert∧remove, update∧remove, insert∧update each
produce their own error condition — and returns without error whenever at
most one of the three flags is true (the source method only reads the
Subject, so it leaves it unchanged). -/
theorem validate_conflict_spec (s : Subject) :
    (s.validate = Except.ok () ↔
       ¬((s.mustBeInserted = true ∧ s.mustBeRemoved = true) ∨
         (s.mustBeUpdated = true ∧ s.mustBeRemoved = true) ∨
         (s.mustBeInserted = true ∧ s.mustBeUpdated = true))) ∧
    (s.mustBeInserted = true → s.mustBeRemoved = true →
       s.validate = Except.error (ConflictingOperationError.insertRemove s.metadata.name)) ∧
    (s.mustBeInserted = false → s.mustBeUpdated = true → s.mustBeRemoved = true →
       s.validate = Except.error (ConflictingOperationError.updateRemove s.metadata.name)) ∧
    (s.mustBeRemoved = false → s.mustBeInserted = true → s.mustBeUpdated = true →
       s.validate = Except.error (ConflictingOperationError.insertUpdate s.metadata.name)) := by
  cases h1 : s.mustBeInserted <;> cases h2 : s.mustBeUpdated <;> cases h3 : s.mustBeRemoved <;>
    simp_all [Subject.validate]

/-- Witness for C1: a subject eligible for insert and marked for removal is
rejected with the insert-vs-remove error. -/
theorem validate_conflict_spec_witness :
    conflictSubject.validate = Except.error (ConflictingOperationError.insertRemove "Photo") :=
  (validate_conflict_spec conflictSubject).2.1 rfl rfl

/-- C2: `mustBeInserted` holds exactly when the subject is insert-eligible and
has no database entity, independently of all other subject state. -/
theorem mustBeInserted_iff (s : Subject) :
    s.mustBeInserted = true ↔ (s.canBeInserted = true ∧ s.hasDatabaseEntity = false) := by
  simp [Subject.mustBeInserted]

/-- C3: `mustBeUpdated` holds exactly when the subject is update-eligible and
at least one of `diffColumns` / `diffRelations` is non-empty. -/
theorem mustBeUpdated_iff (s : Subject) :
    s.mustBeUpdated = true ↔
      (s.canBeUpdated = true ∧ (s.diffColumns.length > 0 ∨ s.diffRelations.length > 0)) := by
  simp [Subject.mustBeUpdated]

/-- C4: on a subject that already holds a desired entity, the
`databaseEntity` setter stores the snapshot and, as part of the assignment,
recomputes `diffColumns` as `buildDiffColumns` and `diffRelations` as
`buildDiffRelationalColumns` against the new snapshot. -/
theorem setDatabaseEntity_with_entity (s : Subject) (e db : ObjectLiteral)
    (h : s.persistEntity = some e) :
    (s.setDatabaseEntity db).databaseEntityField = some db ∧
    (s.setDatabaseEntity db).diffColumns = buildDiffColumns s.metadata e db ∧
    (s.setDatabaseEntity db).diffRelations = buildDiffRelationalColumns s.metadata e db := by
  simp [Subject.setDatabaseEntity, Subject.hasEntity, Subject.entityOrEmpty, h]

/-- Witness for C4: attaching the snapshot `dbFav` to `freshSubject` stores it
and fills in both diff fields. -/
theorem setDatabaseEntity_with_entity_witness :
    (freshSubject.setDatabaseEntity dbFav).databaseEntityField = some dbFav ∧
    (freshSubject.setDatabaseEntity dbFav).diffColumns = buildDiffColumns postMeta eFav dbFav ∧
    (freshSubject.setDatabaseEntity dbFav).diffRelations = buildDiffRelationalColumns postMeta eFav dbFav :=
  setDatabaseEntity_with_entity freshSubject eFav dbFav rfl

/-- C10: on a subject without a desired entity, the `databaseEntity` setter
stores the snapshot (so `hasDatabaseEntity` becomes true) without attempting
any diff computation, and leaves every other field — in particular
`diffColumns` and `diffRelations` — unchanged. -/
theorem setDatabaseEntity_without_entity (s : Subject) (db : ObjectLiteral)
    (h : s.hasEntity = false) :
    (s.setDatabaseEntity db).databaseEntityField = some db ∧
    (s.setDatabaseEntity db).hasDatabaseEntity = true ∧
    (s.setDatabaseEntity db).metadata = s.metadata ∧
    (s.setDatabaseEntity db).persistEntity = s.persistEntity ∧
    (s.setDatabaseEntity db).date = s.date ∧
    (s.setDatabaseEntity db).canBeInserted = s.canBeInserted ∧
    (s.setDatabaseEntity db).canBeUpdated = s.canBeUpdated ∧
    (s.setDatabaseEntity db).mustBeRemoved = s.mustBeRemoved ∧
    (s.setDatabaseEntity db).diffColumns = s.diffColumns ∧
    (s.setDatabaseEntity db).diffRelations = s.diffRelations ∧
    (s.setDatabaseEntity db).relationUpdates = s.relationUpdates ∧
    (s.setDatabaseEntity db).junctionInserts = s.junctionInserts ∧
    (s.setDatabaseEntity db).junctionRemoves = s.junctionRemoves ∧
    (s.setDatabaseEntity db).newlyGeneratedId = s.newlyGeneratedId ∧
    (s.setDatabaseEntity db).parentGeneratedId = s.parentGeneratedId ∧
    (s.setDatabaseEntity db).treeLevel = s.treeLevel := by
  unfold Subject.setDatabaseEntity
  simp_all [Subject.hasEntity, Subject.hasDatabaseEntity]

/-- Witness for C10: attaching `dbFav` to the entity-less `orphanSubject`
stores the snapshot and keeps its previously computed diff fields. -/
theorem setDatabaseEntity_without_entity_witness :
    (orphanSubject.setDatabaseEntity dbFav).databaseEntityField = some dbFav ∧
    (orphanSubject.setDatabaseEntity dbFav).diffColumns = orphanSubject.diffColumns ∧
    (orphanSubject.setDatabaseEntity dbFav).diffRelations = orphanSubject.diffRelations :=
  ⟨(setDatabaseEntity_without_entity orphanSubject dbFav rfl).1,
   (setDatabaseEntity_without_entity orphanSubject dbFav rfl).2.2.2.2.2.2.2.2.1,
   (setDatabaseEntity_without_entity orphanSubject dbFav rfl).2.2.2.2.2.2.2.2.2.1⟩

/-- C5: a column appearing in the column diff is never one of the six
system-managed kinds (virtual, parent-id, discriminator, update-date,
version, create-date), and its raw value is always resolvable on the desired
entity: `entity[propertyName]` is defined for a non-embedded column, and both
`entity[embeddedProperty]` and `entity[embeddedProperty][propertyName]` are
defined for an embedded column. -/
theorem diffColumns_excludes (m : EntityMetadata) (e db : ObjectLiteral) (c : ColumnMetadata)
    (hc : c ∈ buildDiffColumns m e db) :
    c.isVirtual = false ∧ c.isParentId = false ∧ c.isDiscriminator = false ∧
    c.isUpdateDate = false ∧ c.isVersion = false ∧ c.isCreateDate = false ∧
    (c.isInEmbedded = false → (getProp e c.propertyName).isUndefined = false) ∧
    (c.isInEmbedded = true →
       (getProp e c.embeddedProperty).isUndefined = false ∧
       (propOf (getProp e c.embeddedProperty) c.propertyName).isUndefined = false) := by
  have hp : columnDiffPred m e db c = true := (List.mem_filter.mp hc).2
  have hiff := (columnDiffPred_iff m e db c).mp hp
  obtain ⟨hres, hsys, -, -⟩ := hiff
  have hflags : c.isVirtual = false ∧ c.isParentId = false ∧ c.isDiscriminator = false ∧
      c.isUpdateDate = false ∧ c.isVersion = false ∧ c.isCreateDate = false := by
    unfold isSystemManaged at hsys
    simp only [Bool.or_eq_false_iff] at hsys
    exact ⟨hsys.1.1.1.1.1, hsys.1.1.1.1.2, hsys.1.1.1.2, hsys.1.1.2, hsys.1.2, hsys.2⟩
  refine ⟨hflags.1, hflags.2.1, hflags.2.2.1, hflags.2.2.2.1, hflags.2.2.2.2.1, hflags.2.2.2.2.2, ?_, ?_⟩
  · intro hemb
    unfold rawValueResolvable at hres
    simp [hemb] at hres
    simp [hres]
  · intro hemb
    unfold rawValueResolvable at hres
    simp [hemb] at hres
    simp [hres.1, hres.2]

/-- Witness for C5: the `favorites` column is in the diff of `eFav` against
`dbFav`, and is accordingly non-system-managed and resolvable. -/
theorem diffColumns_excludes_witness :
    favoritesCol.isVirtual = false ∧ favoritesCol.isParentId = false ∧
    favoritesCol.isDiscriminator = false ∧ favoritesCol.isUpdateDate = false ∧
    favoritesCol.isVersion = false ∧ favoritesCol.isCreateDate = false ∧
    (favoritesCol.isInEmbedded = false → (getProp eFav favoritesCol.propertyName).isUndefined = false) ∧
    (favoritesCol.isInEmbedded = true →
       (getProp eFav favoritesCol.embeddedProperty).isUndefined = false ∧
       (propOf (getProp eFav favoritesCol.embeddedProperty) favoritesCol.propertyName).isUndefined = false) :=
  diffColumns_excludes postMeta eFav dbFav favoritesCol (by decide)

/-- Counterexample for C6 as stated: `authorId` is the foreign-key column of
the owning many-to-one relation `author`; in `bareIdEntity` the relation
property holds the bare foreign-key id `5` — not a live object — while the
column value differs (7 vs 3) and is otherwise eligible; the claim therefore
demands the column be included, yet the code excludes it (the column diff is
empty), because the source tests only for non-null/non-undefined, not for an
object. -/
theorem diffColumns_relation_exclusion_counterexample :
    (getProp bareIdEntity "author").isObjectVal = false ∧
    (getProp bareIdEntity "author").isNull = false ∧
    (getProp bareIdEntity "author").isUndefined = false ∧
    rawValueResolvable bareIdEntity authorIdCol = true ∧
    isSystemManaged authorIdCol = false ∧
    strictEq (getEntityValueOf bareIdEntity authorIdCol) (getEntityValueOf articleDb authorIdCol) = false ∧
    (articleMeta.findRelationWithDbName "authorId").isSome = true ∧
    buildDiffColumns articleMeta bareIdEntity articleDb = [] := by
  decide

/-- C6 (amended): for an otherwise eligible non-embedded column whose name
corresponds to an owning relation's foreign key (the relation's database-facing
name), the column is in the column diff exactly when the desired entity's
value at that relation's property is `null` or `undefined` — i.e. it is
excluded whenever that value is any non-null/non-undefined value, a live
object or a bare foreign-key id alike; in the bare-id case the change can
still surface in the relation diff, which accepts bare ids as identifiers. -/
theorem diffColumns_relation_exclusion (m : EntityMetadata) (e db : ObjectLiteral)
    (c : ColumnMetadata) (r : RelationMetadata)
    (hmem : c ∈ m.allColumns)
    (hemb : c.isInEmbedded = false)
    (hrel : m.findRelationWithDbName c.propertyName = some r)
    (hres : (getProp e c.propertyName).isUndefined = false)
    (hsys : isSystemManaged c = false)
    (hne : strictEq (normalizeForComparison c (getEntityValueOf e c) (getEntityValueOf db c)).1
                    (normalizeForComparison c (getEntityValueOf e c) (getEntityValueOf db c)).2 = false) :
    c ∈ buildDiffColumns m e db ↔
      ((getProp e r.propertyName).isNull = true ∨ (getProp e r.propertyName).isUndefined = true) := by
  unfold buildDiffColumns
  rw [List.mem_filter]
  rw [columnDiffPred_iff]
  constructor
  · rintro ⟨-, -, -, -, hguard⟩
    exact hguard hemb r hrel
  · intro hnull
    refine ⟨hmem, ?_, hsys, hne, ?_⟩
    · unfold rawValueResolvable
      simp [hemb, hres]
    · intro _ r' hr'
      rw [hrel] at hr'
      cases hr'
      exact hnull

/-- Witness for the amended C6: with the relation property set to `null`, the
differing foreign-key column is included in the column diff. -/
theorem diffColumns_relation_exclusion_witness :
    authorIdCol ∈ buildDiffColumns articleMeta nullRelEntity articleDb :=
  (diffColumns_relation_exclusion articleMeta nullRelEntity articleDb authorIdCol authorRel
      (List.Mem.head _) rfl rfl rfl rfl rfl).mpr (Or.inl rfl)

/-- Counterexample for C7 as stated: the desired-side composite identifier
extracted for `compositeRel` and the database-side identifier are structurally
equal maps (same fields, value-equal), yet because the source compares with
strict `!==` — which is reference comparison on objects — the relation IS
included in the relation diff, contradicting the claim's "composite
identifiers are compared by value". -/
theorem buildDiffRelations_compare_counterexample :
    objFieldsOf (updatedEntityRelationId compEntity compositeRel) =
      [("a", JsVal.vInt 1), ("b", JsVal.vInt 2)] ∧
    objFieldsOf (getProp compDb "authorId") = [("a", JsVal.vInt 1), ("b", JsVal.vInt 2)] ∧
    objRefOf (updatedEntityRelationId compEntity compositeRel) = 1 ∧
    objRefOf (getProp compDb "authorId") = 2 ∧
    strictEq (updatedEntityRelationId compEntity compositeRel) (getProp compDb "authorId") = false ∧
    (buildDiffRelationalColumns compMeta compEntity compDb).map (fun r => r.propertyName) =
      ["author"] :=
  ⟨rfl, rfl, rfl, rfl, rfl, rfl⟩

/-- C7 (amended): a relation is in the relation diff iff it is a declared
relation that is many-to-one or owning one-to-one, its desired-side
identifier (mixed identifier of a nested object, or the raw property value
otherwise) is not undefined, the two identifiers are not both
null/undefined, and they are not strictly equal — where strict equality
compares scalar identifiers by value but composite identifier maps by
reference, so structurally equal yet distinct composite maps count as
different.  Non-owning and to-many relations never appear. -/
theorem buildDiffRelations_membership (m : EntityMetadata) (e db : ObjectLiteral)
    (r : RelationMetadata) :
    r ∈ buildDiffRelationalColumns m e db ↔
      (r ∈ m.allRelations ∧
       (r.isManyToOne = true ∨ (r.isOneToOne = true ∧ r.isOwning = true)) ∧
       (updatedEntityRelationId e r).isUndefined = false ∧
       ¬(((updatedEntityRelationId e r).isUndefined = true ∨ (updatedEntityRelationId e r).isNull = true) ∧
         ((getProp db r.name).isUndefined = true ∨ (getProp db r.name).isNull = true)) ∧
       strictEq (updatedEntityRelationId e r) (getProp db r.name) = false) := by
  unfold buildDiffRelationalColumns
  rw [List.mem_filter, relationDiffPred_iff]

/-- Witness for the amended C7 at a concrete input: `compositeRel` satisfies
all conditions against `compEntity` / `compDb` and is in the diff. -/
theorem buildDiffRelations_membership_witness :
    compositeRel ∈ buildDiffRelationalColumns compMeta compEntity compDb :=
  (buildDiffRelations_membership compMeta compEntity compDb compositeRel).mpr
    ⟨List.Mem.head _, Or.inl rfl, rfl, by decide, rfl⟩

/-- C8: for a non-null, non-undefined entity-side value, a `datetime` column
normalizes BOTH sides (via the local-timezone conversion when
`loadInLocalTimezone` is set, via the UTC conversion otherwise), whereas
`date` and `time` columns transform only the entity-side value, leaving the
database-side value exactly as stored; consequently, for a `datetime` column
with `loadInLocalTimezone = false`, entity-side and database-side values
denoting the same UTC instant in different timezone representations
normalize to equal strings and the column never appears in the column diff. -/
theorem datetime_normalization_asymmetry (c : ColumnMetadata) (ev dv : JsVal)
    (hn : ev.isNull = false) (hu : ev.isUndefined = false) :
    (c.type = ColumnType.datetime → c.loadInLocalTimezone = false →
       normalizeForComparison c ev dv =
         (mixedDateToUtcDatetimeString ev, mixedDateToUtcDatetimeString dv)) ∧
    (c.type = ColumnType.datetime → c.loadInLocalTimezone = true →
       normalizeForComparison c ev dv =
         (mixedDateToDatetimeString ev, mixedDateToDatetimeString dv)) ∧
    (c.type = ColumnType.date → normalizeForComparison c ev dv = (mixedDateToDateString ev, dv)) ∧
    (c.type = ColumnType.time → normalizeForComparison c ev dv = (mixedDateToTimeString ev, dv)) ∧
    (∀ (m : EntityMetadata) (e db : ObjectLiteral) (r1 r2 : Nat) (i o1 o2 : Int),
       c.type = ColumnType.datetime → c.loadInLocalTimezone = false →
       getEntityValueOf e c = JsVal.vDate r1 i o1 →
       getEntityValueOf db c = JsVal.vDate r2 i o2 →
       c ∉ buildDiffColumns m e db) := by
  refine ⟨?_, ?_, ?_, ?_, ?_⟩
  · intro ht hl; simp [normalizeForComparison, hn, hu, ht, hl]
  · intro ht hl; simp [normalizeForComparison, hn, hu, ht, hl]
  · intro ht; simp [normalizeForComparison, hn, hu, ht]
  · intro ht; simp [normalizeForComparison, hn, hu, ht]
  · intro m e db r1 r2 i o1 o2 ht hl hev hdv hc
    have hp : columnDiffPred m e db c = true := (List.mem_filter.mp hc).2
    obtain ⟨-, -, hne, -⟩ := (columnDiffPred_iff m e db c).mp hp
    rw [hev, hdv] at hne
    simp [normalizeForComparison, JsVal.isNull, JsVal.isUndefined, ht, hl,
      mixedDateToUtcDatetimeString, strictEq] at hne

/-- Witness for C8: the column `seenAt` with entity value `vDate 1 1000 120`
and database value `vDate 2 1000 0` (same instant 1000, different timezone
representation and identity) produces no diff entry in UTC mode. -/
theorem datetime_normalization_asymmetry_witness :
    seenAtCol ∉ buildDiffColumns eventMeta eventEntity eventDb :=
  (datetime_normalization_asymmetry seenAtCol (JsVal.vDate 1 1000 120) (JsVal.vDate 2 1000 0)
      rfl rfl).2.2.2.2 eventMeta eventEntity eventDb 1 2 1000 120 0 rfl rfl rfl rfl

/-- Counterexample for C9 as stated: `compMeta` has no columns (so desired
and database entity are trivially value-equal on every diffable column) and
one owning many-to-one relation whose desired-side and database-side
identifiers are value-equal composite maps (identical field lists), yet
`buildDiffRelationalColumns` returns the relation — the source's `!==` at
line 407 compares composite identifier maps by reference — and the
update-eligible `compSubject` has `mustBeUpdated = true` after the snapshot
is attached, contradicting the claimed idempotence under value-equality. -/
theorem diff_idempotence_counterexample :
    compMeta.allColumns = [] ∧
    buildDiffColumns compMeta compEntity compDb = [] ∧
    objFieldsOf (updatedEntityRelationId compEntity compositeRel) =
      objFieldsOf (getProp compDb compositeRel.name) ∧
    (buildDiffRelationalColumns compMeta compEntity compDb).map (fun r => r.propertyName) =
      ["author"] ∧
    (compSubject.setDatabaseEntity compDb).mustBeUpdated = true :=
  ⟨rfl, rfl, rfl, rfl, rfl⟩

/-- C9 (amended, idempotence of diffing): if every resolvable,
non-system-managed column compares STRICTLY equal after normalization and
every owning many-to-one/one-to-one relation identifier compares strictly
equal — JS `===` semantics: scalars and normalized strings by value,
composite identifier maps by object reference — then both diff computations
return the empty sequence, and any subject holding this desired entity has
`mustBeUpdated = false` after the snapshot is attached, whatever its
`canBeUpdated` flag.  Mere value-equality of composite identifiers is not
sufficient (see the counterexample). -/
theorem diff_idempotence (m : EntityMetadata) (e db : ObjectLiteral)
    (hcols : ∀ c ∈ m.allColumns, rawValueResolvable e c = true → isSystemManaged c = false →
       strictEq (normalizeForComparison c (getEntityValueOf e c) (getEntityValueOf db c)).1
                (normalizeForComparison c (getEntityValueOf e c) (getEntityValueOf db c)).2 = true)
    (hrels : ∀ r ∈ m.allRelations,
       (r.isManyToOne = true ∨ (r.isOneToOne = true ∧ r.isOwning = true)) →
       strictEq (updatedEntityRelationId e r) (getProp db r.name) = true) :
    buildDiffColumns m e db = [] ∧ buildDiffRelationalColumns m e db = [] ∧
    (∀ s : Subject, s.metadata = m → s.persistEntity = some e →
       (s.setDatabaseEntity db).mustBeUpdated = false) := by
  have hcol : buildDiffColumns m e db = [] := by
    unfold buildDiffColumns
    rw [List.filter_eq_nil_iff]
    intro c hc hp
    obtain ⟨hres, hsys, hne, -⟩ := (columnDiffPred_iff m e db c).mp hp
    rw [hcols c hc hres hsys] at hne
    exact absurd hne (by simp)
  have hrel : buildDiffRelationalColumns m e db = [] := by
    unfold buildDiffRelationalColumns
    rw [List.filter_eq_nil_iff]
    intro r hr hp
    obtain ⟨hshape, -, -, hne⟩ := (relationDiffPred_iff e db r).mp hp
    rw [hrels r hr hshape] at hne
    exact absurd hne (by simp)
  refine ⟨hcol, hrel, ?_⟩
  intro s hm he
  unfold Subject.setDatabaseEntity
  simp [Subject.hasEntity, he, Subject.entityOrEmpty, Subject.mustBeUpdated, hm, hcol, hrel]

/-- Witness for the amended C9: the desired entity `eFav` against the
scalar-for-scalar equal snapshot `dbSame` yields empty diffs, and
`sameSubject` (with stale non-empty `diffColumns` and `canBeUpdated = true`)
has `mustBeUpdated = false` after the snapshot is attached. -/
theorem diff_idempotence_witness :
    buildDiffColumns postMeta eFav dbSame = [] ∧
    buildDiffRelationalColumns postMeta eFav dbSame = [] ∧
    (sameSubject.setDatabaseEntity dbSame).mustBeUpdated = false :=
  ⟨(diff_idempotence postMeta eFav dbSame (by decide) (by decide)).1,
   (diff_idempotence postMeta eFav dbSame (by decide) (by decide)).2.1,
   (diff_idempotence postMeta eFav dbSame (by decide) (by decide)).2.2 sameSubject rfl rfl⟩
